import Mathlib

/-!
Shallow embedding of the FASTSHOOTINGAI ID-photo service.

The repository consists of a Vercel serverless handler (`src/api/generate.ts`,
first document: `handler`, `getBackgroundColorHex`, `getOutfitDescription`,
the prompt template and `beautificationInstructions`), a client invoker
(`generateIdPhoto`, the variant with JSON-parse fallback and body truncation,
`src/api/generate.ts` lines 174-229), and an alternate draft of the handler
with a concise prompt (`src/unnamed/part_000`).

Modelling conventions:
* JavaScript `undefined`-able fields become `Option` fields; JS truthiness of
  a string-or-undefined value is `truthyStr` (undefined and `""` are falsy).
* The outbound Gemini call is a parameter of `handler`: its outcome is either
  a response value (`Except.ok`) or a thrown value (`Except.error`), so the
  try/catch around the call becomes a `match`.
* The process environment is a function `String → Option String`.
* JS `substring (0, 200)` on the client error path becomes `String.take 200`
  (code-unit vs code-point indexing is not modelled).
-/

namespace FastShooting

/-- JS truthiness of an optional string value: `undefined` and the empty
string are falsy, every other string is truthy. -/
def truthyStr : Option String → Bool
  | none => false
  | some s => s != ""

/-- The destructured request body of the handler (`req.body`); each field may
be absent. -/
structure RequestBody where
  base64Image : Option String
  mimeType : Option String
  backgroundColor : Option String
  outfit : Option String
  enableBeautification : Option Bool
  deriving DecidableEq

/-- `getBackgroundColorHex` from `src/api/generate.ts` lines 11-18. -/
def getBackgroundColorHex (color : String) : String :=
  if color = "青" then ("#a0d8ef")
  else if color = "白" then ("#ffffff")
  else if color = "グレー" then ("#f0f0f0")
  else ("#ffffff")

/-- `getOutfitDescription` from `src/api/generate.ts` lines 21-27. -/
def getOutfitDescription (outfit : String) : String :=
  if outfit = "男性用スーツ" then
    ("dark-colored business suit with a white collared shirt and a simple tie")
  else if outfit = "女性用スーツ" then
    ("dark-colored business suit with a white blouse")
  else ("professional business attire")

/-- `beautificationInstructions` from `src/api/generate.ts` lines 30-32. -/
def beautificationInstructions : String :=
  "\n    6.  **Beautification:** Apply subtle, natural skin smoothing to reduce minor blemishes, but preserve permanent features like moles and scars. Slightly enhance eye clarity.\n"

/-- Fixed prompt text before the outfit interpolation (template literal,
`src/api/generate.ts` lines 67-70). -/
def promptPart1 : String :=
  "\n    As an expert AI photo editor, transform the user\x27s photo into a professional ID photo following these rules:\n\n    1.  **Clothing:** Change the attire to a "

/-- Fixed prompt text between the outfit and background interpolations. -/
def promptPart2 : String :=
  ". Ensure it fits naturally.\n    2.  **Background:** Replace the original background with a solid, smooth color: "

/-- Fixed prompt text between the background interpolation and the
beautification clause. -/
def promptPart3 : String :=
  ".\n    3.  **Composition:** Center the subject, looking forward. Adjust head tilt so the eye-line is horizontal. Ensure proper headroom for an ID photo.\n    4.  **Lighting & Quality:** Re-light the subject with soft, professional studio lighting. Eliminate harsh shadows. The final image must be sharp, clear, high-resolution, and suitable for printing.\n    5.  **Identity:** CRITICAL: Do not alter core facial features (eyes, nose, mouth, face shape). The subject must be easily identifiable.\n    "

/-- Fixed prompt text after the beautification clause. -/
def promptPart4 : String :=
  "\n\n    Output only the final image file.\n    "

/-- The explicit negative clause interpolated when beautification is off
(`src/api/generate.ts` line 77). -/
def disabledClause : String :=
  "6. **Beautification:** All cosmetic adjustments are disabled."

/-- The prompt template literal of the handler (`src/api/generate.ts`
lines 67-81), as a function of the two option strings and the
beautification flag. -/
def buildPrompt (backgroundColor outfit : String) (enableBeautification : Bool) : String :=
  promptPart1 ++ getOutfitDescription outfit ++ promptPart2 ++
    getBackgroundColorHex backgroundColor ++ promptPart3 ++
    (if enableBeautification then beautificationInstructions else disabledClause) ++
    promptPart4

/-- `beautificationInstructions` of the alternate handler draft
(`src/unnamed/part_000` line 30). -/
def altBeautificationInstructions : String :=
  "Subtle, natural skin smoothing to reduce minor blemishes, preserve permanent features like moles/scars, and slightly enhance eye clarity."

/-- Fixed text of the alternate prompt before the outfit interpolation
(`src/unnamed/part_000` lines 65-68). -/
def altPart1 : String :=
  "\n    Objective: Convert user photo to a professional ID photo.\n    Rules:\n    - Attire: Change to a "

/-- Fixed text of the alternate prompt between outfit and background. -/
def altPart2 : String :=
  ". Fit naturally.\n    - Background: Replace with solid color, hex code "

/-- Fixed text of the alternate prompt between background and the
beautification clause; ends with the label of the beautification rule. -/
def altPart3 : String :=
  ".\n    - Pose: Center subject, forward-facing, horizontal eye-line. Ensure proper ID photo headroom.\n    - Lighting: Re-light with professional, soft studio lighting. Eliminate harsh shadows.\n    - Quality: Output must be high-resolution, sharp, clear, and print-ready.\n    - Identity Preservation: CRITICAL - Do NOT alter core facial features (eyes, nose, mouth, shape). Subject must remain identifiable.\n    - Beautification: "

/-- The front of `altPart3`, ending just before the beautification label;
`altPart3 = altPart3head ++ "- Beautification: "`. -/
def altPart3head : String :=
  ".\n    - Pose: Center subject, forward-facing, horizontal eye-line. Ensure proper ID photo headroom.\n    - Lighting: Re-light with professional, soft studio lighting. Eliminate harsh shadows.\n    - Quality: Output must be high-resolution, sharp, clear, and print-ready.\n    - Identity Preservation: CRITICAL - Do NOT alter core facial features (eyes, nose, mouth, shape). Subject must remain identifiable.\n    "

/-- Fixed text of the alternate prompt after the beautification clause. -/
def altPart4 : String :=
  "\n    - Final Output: Return only the final image file. No text.\n    "

/-- The prompt template literal of the alternate handler draft
(`src/unnamed/part_000` lines 65-76). -/
def altBuildPrompt (backgroundColor outfit : String) (enableBeautification : Bool) : String :=
  altPart1 ++ getOutfitDescription outfit ++ altPart2 ++
    getBackgroundColorHex backgroundColor ++ altPart3 ++
    (if enableBeautification then altBeautificationInstructions else ("Disabled.")) ++
    altPart4

/-- An inline image segment of the external API response
(`part.inlineData`). -/
structure InlineData where
  data : String
  mimeType : String
  deriving DecidableEq

/-- One content segment of the external API response: it may carry inline
image data and may carry text. -/
structure GenPart where
  inlineData : Option InlineData
  text : Option String
  deriving DecidableEq

/-- `candidate.content`: the content carries an optional list of parts. -/
structure Content where
  parts : Option (List GenPart)
  deriving DecidableEq

/-- One candidate of the external API response. -/
structure Candidate where
  finishReason : Option String
  content : Option Content
  deriving DecidableEq

/-- The external generation API response (`response.candidates`). -/
structure GenResponse where
  candidates : Option (List Candidate)
  deriving DecidableEq

/-- `response.candidates?.[0]`. -/
def firstCandidate (resp : GenResponse) : Option Candidate :=
  resp.candidates.bind List.head?

/-- `candidate?.finishReason`. -/
def firstFinishReason (resp : GenResponse) : Option String :=
  (firstCandidate resp).bind Candidate.finishReason

/-- `candidate?.content?.parts`. -/
def respParts (resp : GenResponse) : Option (List GenPart) :=
  (firstCandidate resp).bind (fun c => c.content.bind Content.parts)

/-- A JSON body sent by the handler: either an error object, an image
object, or the raw text used by `res.end`. -/
inductive HttpBody where
  | errorJson (error : String)
  | imageJson (base64Image : String)
  | rawText (text : String)
  deriving DecidableEq

/-- An HTTP response produced by the handler: status, optional `Allow`
header, body. -/
structure HttpResponse where
  status : Nat
  allowHeader : Option String
  body : HttpBody
  deriving DecidableEq

/-- A JavaScript thrown value: an `Error` instance with a message, or any
non-`Error` throwable. -/
inductive Thrown where
  | errObj (message : String)
  | nonError
  deriving DecidableEq

/-- `error instanceof Error ? error.message : "不明なエラーが発生しました。"`
(`src/api/generate.ts` line 124). -/
def thrownMessage : Thrown → String
  | Thrown.errObj m => m
  | Thrown.nonError => ("不明なエラーが発生しました。")

/-- The outcome of the handler: the single HTTP response it sends, and whether
control reached the outbound external API call. -/
structure HandlerResult where
  response : HttpResponse
  calledApi : Bool
  deriving DecidableEq

/-- Body of the 405 response (`res.status (405).end`). -/
def methodNotAllowedMsg : String := "Method Not Allowed"

/-- Error message of the 400 validation response. -/
def missingMsg : String := "Missing required parameters in request body."

/-- Error message of the 500 configuration response sent when the API key is
missing or empty. -/
def apiKeyConfigMsg : String :=
  "サーバー側のAPIキー設定に問題があります。Vercelプロジェクトの「Settings」 > 「Environment Variables」で、`API_KEY` という名前の環境変数が正しく設定され、「Production」環境に適用されているか確認してください。設定後は再デプロイが必要です。"

/-- Error message of the 400 safety-block response. -/
def safetyBlockedMsg : String :=
  "生成が安全ポリシーによりブロックされました。不適切な画像である可能性があります。"

/-- Error message of the 500 empty-response branch. -/
def emptyRespMsg : String :=
  "AIから空のレスポンスが返されました。時間をおいて再度お試しください。"

/-- Error message of the final 500 fallback branch. -/
def cannotGenerateMsg : String :=
  "AIが画像を生成できませんでした。別の写真で試すか、設定を変更してください。"

/-- Interpretation of a non-empty parts list (`src/api/generate.ts`
lines 104-120): empty list check, then `find` of a part with truthy
`inlineData`, then `find` of a part with truthy `text`, then the generic
fallback. -/
def interpretParts (parts : List GenPart) : HttpResponse :=
  if parts = [] then ⟨500, none, HttpBody.errorJson emptyRespMsg⟩
  else
    match (parts.find? (fun p => p.inlineData.isSome)).bind GenPart.inlineData with
    | some d => ⟨200, none, HttpBody.imageJson d.data⟩
    | none =>
      match (parts.find? (fun p => truthyStr p.text)).bind GenPart.text with
      | some t => ⟨500, none, HttpBody.errorJson ("AIからのメッセージ: " ++ t)⟩
      | none => ⟨500, none, HttpBody.errorJson cannotGenerateMsg⟩

/-- Mapping of a successfully returned external API response to the HTTP
response (`src/api/generate.ts` lines 98-120): safety check first, then
missing/empty parts, then the image/text/generic cascade. -/
def interpretResponse (resp : GenResponse) : HttpResponse :=
  if firstFinishReason resp = some ("SAFETY") then
    ⟨400, none, HttpBody.errorJson safetyBlockedMsg⟩
  else
    match respParts resp with
    | none => ⟨500, none, HttpBody.errorJson emptyRespMsg⟩
    | some parts => interpretParts parts

/-- The validation predicate of the handler, as the conjunction that all
four string fields are truthy and `enableBeautification` is not undefined
(the negation of the condition at `src/api/generate.ts` line 48). -/
def validBody (b : RequestBody) : Bool :=
  truthyStr b.base64Image && truthyStr b.mimeType && truthyStr b.backgroundColor &&
    truthyStr b.outfit && !b.enableBeautification.isNone

/-- The serverless handler (`src/api/generate.ts` lines 35-127). The
outcome of the outbound Gemini call is passed in as `call`; `calledApi`
records whether execution reached that call. -/
def handler (method : String) (b : RequestBody) (env : String → Option String)
    (call : Except Thrown GenResponse) : HandlerResult :=
  if method ≠ "POST" then
    ⟨⟨405, some ("POST"), HttpBody.rawText methodNotAllowedMsg⟩, false⟩
  else if !truthyStr b.base64Image || !truthyStr b.mimeType ||
      !truthyStr b.backgroundColor || !truthyStr b.outfit ||
      b.enableBeautification.isNone then
    ⟨⟨400, none, HttpBody.errorJson missingMsg⟩, false⟩
  else if !truthyStr (env ("API_KEY")) then
    ⟨⟨500, none, HttpBody.errorJson apiKeyConfigMsg⟩, false⟩
  else
    match call with
    | Except.ok resp => ⟨interpretResponse resp, true⟩
    | Except.error e => ⟨⟨500, none, HttpBody.errorJson (thrownMessage e)⟩, true⟩

/-- The uncaught TypeError thrown by the destructuring
`const { base64Image, ... } = req.body` at `src/api/generate.ts`
line 45 when `req.body` is null or undefined. -/
def destructureTypeError : Thrown :=
  Thrown.errObj ("TypeError: Cannot destructure property \x27base64Image\x27 of \x27req.body\x27 as it is undefined.")

/-- The serverless handler on a raw inbound request, where `req.body` may
be null or undefined (`none`) rather than a destructurable object. The
method check at `src/api/generate.ts` line 40 runs first; then the
destructuring at line 45 — which sits outside the try/catch — throws an
uncaught TypeError when the body is null/undefined (`Except.error`), and
otherwise the destructured fields are processed by `handler`. -/
def handlerReq (method : String) (body : Option RequestBody)
    (env : String → Option String) (call : Except Thrown GenResponse) :
    Except Thrown HandlerResult :=
  if method ≠ "POST" then
    Except.ok ⟨⟨405, some ("POST"), HttpBody.rawText methodNotAllowedMsg⟩, false⟩
  else
    match body with
    | none => Except.error destructureTypeError
    | some b => Except.ok (handler method b env call)

/-- The parsed JSON body of a handler response as seen by the client:
optional `error` and `base64Image` fields. -/
structure ClientData where
  error : Option String
  base64Image : Option String
  deriving DecidableEq

/-- The settled HTTP response seen by the client invoker: `ok` flag,
numeric status, the outcome of `response.json ()` (an `Error` message when
parsing fails) and of `response.text ()`. -/
structure FetchResponse where
  ok : Bool
  status : Nat
  jsonResult : Except String ClientData
  textResult : Except String String

/-- The settled outcome of the invoker: a resolved image string or a thrown
error message. -/
inductive InvokeResult where
  | resolved (image : String)
  | threw (message : String)
  deriving DecidableEq

/-- The status-bearing default error message of the invoker
(`src/api/generate.ts` line 197). -/
def statusErrorMsg (status : Nat) : String :=
  "サーバーエラーが発生しました (ステータス: " ++ toString status ++ ")。"

/-- JS `o || fallback` for a string-or-undefined value `o`. -/
def jsOrElse (o : Option String) (fallback : String) : String :=
  match o with
  | some s => if s = "" then fallback else s
  | none => fallback

/-- `errorText.substring (0, 200) + (errorText.length > 200 ? ... : ...)`
(`src/api/generate.ts` line 207). -/
def truncatedBody (errorText : String) : String :=
  errorText.take 200 ++ (if errorText.length > 200 then ("...") else (""))

/-- Error message thrown when an OK response carries no truthy
`base64Image` (`src/api/generate.ts` line 218). -/
def noImageDataMsg : String := "サーバーから画像データが返されませんでした。"

/-- The client invoker (`src/api/generate.ts` lines 174-229, the variant
with the JSON-parse fallback): on a non-OK response, use the parsed
`error` field or the status default, falling back to the truncated body
text when JSON parsing fails; on an OK response, a JSON parse failure is
rethrown (it is an `Error`), a falsy `base64Image` throws the no-image
error, and otherwise the image resolves. -/
def generateIdPhoto (resp : FetchResponse) : InvokeResult :=
  if !resp.ok then
    InvokeResult.threw
      (match resp.jsonResult with
       | Except.ok data => jsOrElse data.error (statusErrorMsg resp.status)
       | Except.error _ =>
         match resp.textResult with
         | Except.ok errorText => truncatedBody errorText
         | Except.error _ => statusErrorMsg resp.status)
  else
    match resp.jsonResult with
    | Except.error parseMsg => InvokeResult.threw parseMsg
    | Except.ok data =>
      match data.base64Image with
      | some img => if img = "" then InvokeResult.threw noImageDataMsg else InvokeResult.resolved img
      | none => InvokeResult.threw noImageDataMsg

/-- Containment of `pat` in `s` as a concatenation decomposition. -/
def strContains (s pat : String) : Prop :=
  ∃ u v : String, s = u ++ pat ++ v

/-! ### Concrete inputs used by the witness theorems -/

/-- A plain-text body of 201 characters, one longer than the truncation
bound. -/
def c1Text : String := "aaaaaaaaaaaaaaaaaaaaaaaaaaaaaaaaaaaaaaaaaaaaaaaaaaaaaaaaaaaaaaaaaaaaaaaaaaaaaaaaaaaaaaaaaaaaaaaaaaaaaaaaaaaaaaaaaaaaaaaaaaaaaaaaaaaaaaaaaaaaaaaaaaaaaaaaaaaaaaaaaaaaaaaaaaaaaaaaaaaaaaaaaaaaaaaaaaaaaaaaa"

/-- A non-OK response whose body is not JSON but reads as `c1Text`. -/
def c1Resp : FetchResponse :=
  ⟨false, 504, Except.error ("Unexpected token"), Except.ok c1Text⟩

/-- An OK response whose JSON body carries a base64 image. -/
def c7RespOk : FetchResponse :=
  ⟨true, 200, Except.ok ⟨none, some ("IMGDATA64")⟩, Except.ok ("")⟩

/-- An OK response whose JSON body lacks the image field. -/
def c7RespMissing : FetchResponse :=
  ⟨true, 200, Except.ok ⟨none, none⟩, Except.ok ("")⟩

/-- An external response whose first candidate reports a safety block. -/
def respSafety : GenResponse := ⟨some [⟨some ("SAFETY"), none⟩]⟩

/-- An external response whose first candidate has an empty parts list. -/
def respEmpty : GenResponse := ⟨some [⟨none, some ⟨some []⟩⟩]⟩

/-- A part carrying inline image data. -/
def imgPart : GenPart := ⟨some ⟨("IMGB64"), ("image/png")⟩, none⟩

/-- An external response with one inline-image segment. -/
def respImg : GenResponse := ⟨some [⟨none, some ⟨some [imgPart]⟩⟩]⟩

/-- A part carrying only text. -/
def txtPart : GenPart := ⟨none, some ("cannot generate this")⟩

/-- An external response with one text-only segment. -/
def respTxt : GenResponse := ⟨some [⟨none, some ⟨some [txtPart]⟩⟩]⟩

/-- A part carrying neither truthy image data nor truthy text. -/
def blankPart : GenPart := ⟨none, some ("")⟩

/-- An external response with one segment carrying nothing truthy. -/
def respBlank : GenResponse := ⟨some [⟨none, some ⟨some [blankPart]⟩⟩]⟩

/-- A fully populated request body with beautification explicitly off. -/
def goodBody : RequestBody :=
  ⟨some ("imgdata"), some ("image/png"), some ("青"), some ("男性用スーツ"), some false⟩

/-- A request body whose `mimeType` is absent. -/
def noMimeBody : RequestBody :=
  ⟨some ("imgdata"), none, some ("青"), some ("男性用スーツ"), some false⟩

/-- A request body whose `mimeType` is the empty string. -/
def emptyMimeBody : RequestBody :=
  ⟨some ("imgdata"), some (""), some ("青"), some ("男性用スーツ"), some true⟩

/-- An environment with no variables at all. -/
def noneEnv : String → Option String := fun _ => none

/-- An environment whose API key is present but empty. -/
def emptyKeyEnv : String → Option String :=
  fun k => if k = "API_KEY" then some ("") else none

/-- An environment with a set API key and nothing else. -/
def goodEnv : String → Option String :=
  fun k => if k = "API_KEY" then some ("sk-test") else none

/-- An environment agreeing with `goodEnv` on the API key but differing
everywhere else. -/
def otherEnv : String → Option String :=
  fun k => if k = "API_KEY" then some ("sk-test") else some ("otherval")

/-- A call outcome standing in for a thrown network error. -/
def dummyCall : Except Thrown GenResponse :=
  Except.error (Thrown.errObj ("network down"))

/-! ### Helper lemmas -/

theorem truthyStr_iff {o : Option String} : truthyStr o = true ↔ ∃ s, o = some s ∧ s ≠ "" := by
  cases o with
  | none => simp [truthyStr]
  | some s => simp [truthyStr, bne_iff_ne]

theorem truthyStr_none : truthyStr none = false := rfl

theorem truthyStr_empty : truthyStr (some ("")) = false := rfl

theorem string_take_length_le (s : String) (n : Nat) : (s.take n).length ≤ n := by
  show (s.take n).data.length ≤ n
  rw [String.data_take, List.length_take]
  exact min_le_left n s.data.length

theorem string_take_of_length_le (s : String) (n : Nat) (h : s.length ≤ n) : s.take n = s := by
  apply String.ext
  rw [String.data_take]
  exact List.take_of_length_le h

theorem interpretParts_image (parts : List GenPart)
    (h : ∃ p ∈ parts, p.inlineData.isSome = true) :
    ∃ p ∈ parts, ∃ d, p.inlineData = some d ∧
      interpretParts parts = ⟨200, none, HttpBody.imageJson d.data⟩ := by
  have hfind : (parts.find? (fun p => p.inlineData.isSome)).isSome := by
    rw [List.find?_isSome]; exact h
  obtain ⟨a, ha⟩ := Option.isSome_iff_exists.mp hfind
  have hpa0 := List.find?_some ha
  have hpa : a.inlineData.isSome = true := by simpa using hpa0
  obtain ⟨d, hd⟩ := Option.isSome_iff_exists.mp hpa
  refine ⟨a, List.mem_of_find?_eq_some ha, d, hd, ?_⟩
  have hne : parts ≠ [] := by
    rintro rfl
    obtain ⟨p, hp, _⟩ := h
    exact absurd hp (List.not_mem_nil p)
  unfold interpretParts
  rw [if_neg hne, ha]
  simp [Option.bind, hd]

theorem interpretParts_text (parts : List GenPart)
    (hni : ∀ p ∈ parts, p.inlineData = none)
    (ht : ∃ p ∈ parts, truthyStr p.text = true) :
    ∃ t, (∃ p ∈ parts, p.text = some t ∧ t ≠ "") ∧
      interpretParts parts = ⟨500, none, HttpBody.errorJson ("AIからのメッセージ: " ++ t)⟩ := by
  have hfindImg : parts.find? (fun p => p.inlineData.isSome) = none := by
    rw [List.find?_eq_none]
    intro p hp
    simp [hni p hp]
  have hfind : (parts.find? (fun p => truthyStr p.text)).isSome :=
    List.find?_isSome.mpr ht
  obtain ⟨a, ha⟩ := Option.isSome_iff_exists.mp hfind
  have hpa0 := List.find?_some ha
  have hpa : truthyStr a.text = true := by simpa using hpa0
  obtain ⟨t, htxt, htne⟩ := truthyStr_iff.mp hpa
  have hne : parts ≠ [] := by
    rintro rfl
    obtain ⟨p, hp, _⟩ := ht
    exact absurd hp (List.not_mem_nil p)
  refine ⟨t, ⟨a, List.mem_of_find?_eq_some ha, htxt, htne⟩, ?_⟩
  unfold interpretParts
  rw [if_neg hne, hfindImg, ha]
  simp [Option.bind, htxt]

theorem interpretParts_generic (parts : List GenPart) (hne : parts ≠ [])
    (hni : ∀ p ∈ parts, p.inlineData = none)
    (hnt : ∀ p ∈ parts, truthyStr p.text = false) :
    interpretParts parts = ⟨500, none, HttpBody.errorJson cannotGenerateMsg⟩ := by
  have hfindImg : parts.find? (fun p => p.inlineData.isSome) = none := by
    rw [List.find?_eq_none]
    intro p hp
    simp [hni p hp]
  have hfindTxt : parts.find? (fun p => truthyStr p.text) = none := by
    rw [List.find?_eq_none]
    intro p hp
    simp [hnt p hp]
  unfold interpretParts
  rw [if_neg hne, hfindImg, hfindTxt]
  rfl

theorem interpretParts_shape (parts : List GenPart) :
    interpretParts parts = ⟨500, none, HttpBody.errorJson emptyRespMsg⟩ ∨
    (∃ d, interpretParts parts = ⟨200, none, HttpBody.imageJson d⟩) ∨
    (∃ t, interpretParts parts = ⟨500, none, HttpBody.errorJson ("AIからのメッセージ: " ++ t)⟩) ∨
    interpretParts parts = ⟨500, none, HttpBody.errorJson cannotGenerateMsg⟩ := by
  unfold interpretParts
  split
  · exact Or.inl rfl
  · split
    · exact Or.inr (Or.inl ⟨_, rfl⟩)
    · split
      · exact Or.inr (Or.inr (Or.inl ⟨_, rfl⟩))
      · exact Or.inr (Or.inr (Or.inr rfl))

theorem interpretResponse_safety (resp : GenResponse)
    (h : firstFinishReason resp = some ("SAFETY")) :
    interpretResponse resp = ⟨400, none, HttpBody.errorJson safetyBlockedMsg⟩ := by
  unfold interpretResponse
  rw [if_pos h]

theorem interpretResponse_not_safety (resp : GenResponse)
    (h : firstFinishReason resp ≠ some ("SAFETY")) :
    interpretResponse resp =
      (match respParts resp with
       | none => ⟨500, none, HttpBody.errorJson emptyRespMsg⟩
       | some parts => interpretParts parts) := by
  unfold interpretResponse
  rw [if_neg h]

theorem interpretResponse_shape (resp : GenResponse) :
    interpretResponse resp = ⟨400, none, HttpBody.errorJson safetyBlockedMsg⟩ ∨
    interpretResponse resp = ⟨500, none, HttpBody.errorJson emptyRespMsg⟩ ∨
    (∃ d, interpretResponse resp = ⟨200, none, HttpBody.imageJson d⟩) ∨
    (∃ t, interpretResponse resp = ⟨500, none, HttpBody.errorJson ("AIからのメッセージ: " ++ t)⟩) ∨
    interpretResponse resp = ⟨500, none, HttpBody.errorJson cannotGenerateMsg⟩ := by
  unfold interpretResponse
  split
  · exact Or.inl rfl
  · split
    · exact Or.inr (Or.inl rfl)
    · rcases interpretParts_shape _ with h | h | h | h
      · exact Or.inr (Or.inl h)
      · exact Or.inr (Or.inr (Or.inl h))
      · exact Or.inr (Or.inr (Or.inr (Or.inl h)))
      · exact Or.inr (Or.inr (Or.inr (Or.inr h)))

theorem interpretParts_nil :
    interpretParts [] = ⟨500, none, HttpBody.errorJson emptyRespMsg⟩ := by
  simp [interpretParts]

theorem interpretResponse_status_body (resp : GenResponse) :
    ((interpretResponse resp).status = 200 ∧
      ∃ img, (interpretResponse resp).body = HttpBody.imageJson img) ∨
    ((400 ≤ (interpretResponse resp).status ∧ (interpretResponse resp).status < 600) ∧
      ∃ msg, (interpretResponse resp).body = HttpBody.errorJson msg) := by
  rcases interpretResponse_shape resp with h | h | ⟨d, h⟩ | ⟨t, h⟩ | h <;> rw [h]
  · exact Or.inr ⟨⟨by norm_num, by norm_num⟩, ⟨safetyBlockedMsg, rfl⟩⟩
  · exact Or.inr ⟨⟨by norm_num, by norm_num⟩, ⟨emptyRespMsg, rfl⟩⟩
  · exact Or.inl ⟨rfl, ⟨d, rfl⟩⟩
  · exact Or.inr ⟨⟨by norm_num, by norm_num⟩, ⟨("AIからのメッセージ: " ++ t), rfl⟩⟩
  · exact Or.inr ⟨⟨by norm_num, by norm_num⟩, ⟨cannotGenerateMsg, rfl⟩⟩

theorem valid_cond_false (b : RequestBody) (hv : validBody b = true) :
    (!truthyStr b.base64Image || !truthyStr b.mimeType ||
      !truthyStr b.backgroundColor || !truthyStr b.outfit ||
      b.enableBeautification.isNone) = false := by
  simp only [validBody, Bool.and_eq_true, Bool.not_eq_true'] at hv
  obtain ⟨⟨⟨⟨h1, h2⟩, h3⟩, h4⟩, h5⟩ := hv
  simp [h1, h2, h3, h4, h5]

theorem handler_valid (b : RequestBody) (env : String → Option String)
    (call : Except Thrown GenResponse) (hv : validBody b = true) :
    handler ("POST") b env call =
      (if !truthyStr (env ("API_KEY")) then
        ⟨⟨500, none, HttpBody.errorJson apiKeyConfigMsg⟩, false⟩
      else
        match call with
        | Except.ok resp => ⟨interpretResponse resp, true⟩
        | Except.error e =>
          ⟨⟨500, none, HttpBody.errorJson (thrownMessage e)⟩, true⟩) := by
  unfold handler
  rw [if_neg (by simp), if_neg (by simp [valid_cond_false b hv])]

theorem truthyStr_false_iff {o : Option String} :
    truthyStr o = false ↔ o = none ∨ o = some ("") := by
  cases o with
  | none => simp [truthyStr]
  | some s => simp [truthyStr]

/-! ### C1 and C7: the client invoker -/

/-- C1: for every non-success HTTP response received by `generateIdPhoto`
whose body fails JSON parsing but reads as text `t`, the invoker throws an
error whose message is `t` truncated to at most its first 200 characters,
with the ellipsis marker appended exactly when `t` exceeds 200 characters;
in particular a body longer than 200 characters yields exactly the first
200 characters plus the ellipsis, and a body of at most 200 characters is
thrown whole, without an ellipsis. -/
theorem c1_truncated_nonjson_error (resp : FetchResponse) (m t : String)
    (hok : resp.ok = false) (hjson : resp.jsonResult = Except.error m)
    (htext : resp.textResult = Except.ok t) :
    generateIdPhoto resp =
      InvokeResult.threw (t.take 200 ++ (if t.length > 200 then ("...") else (""))) ∧
    (t.take 200).length ≤ 200 ∧
    (t.length > 200 →
      generateIdPhoto resp = InvokeResult.threw (t.take 200 ++ ("..."))) ∧
    (t.length ≤ 200 → generateIdPhoto resp = InvokeResult.threw t) := by
  have hmain : generateIdPhoto resp =
      InvokeResult.threw (t.take 200 ++ (if t.length > 200 then ("...") else (""))) := by
    unfold generateIdPhoto truncatedBody
    rw [hok, hjson, htext]
    simp
  refine ⟨hmain, string_take_length_le t 200, ?_, ?_⟩
  · intro h
    rw [hmain, if_pos h]
  · intro h
    rw [hmain, if_neg (by omega), string_take_of_length_le t 200 h]
    simp

set_option maxRecDepth 10000 in
/-- Witness for C1: at the concrete 201-character body `c1Text`, the
hypotheses hold and the invoker throws exactly the first 200 characters
plus the ellipsis. -/
theorem c1_truncated_nonjson_error_witness :
    c1Resp.ok = false ∧ c1Resp.jsonResult = Except.error ("Unexpected token") ∧
    c1Resp.textResult = Except.ok c1Text ∧ c1Text.length > 200 ∧
    generateIdPhoto c1Resp = InvokeResult.threw (c1Text.take 200 ++ ("...")) := by
  refine ⟨rfl, rfl, rfl, by decide, ?_⟩
  exact (c1_truncated_nonjson_error c1Resp ("Unexpected token") c1Text rfl rfl
    rfl).2.2.1 (by decide)

/-- C7: for every success-status response with a JSON body, the invoker
throws the no-image-data error whenever the `base64Image` field is falsy
(absent or empty), resolves with exactly the field value whenever it is a
truthy string, and any resolution it makes carries precisely the body
field, so it never resolves with a value not present in the body. -/
theorem c7_ok_image_contract (resp : FetchResponse) (data : ClientData)
    (hok : resp.ok = true) (hjson : resp.jsonResult = Except.ok data) :
    (truthyStr data.base64Image = false →
      generateIdPhoto resp = InvokeResult.threw noImageDataMsg) ∧
    (∀ img, data.base64Image = some img → img ≠ "" →
      generateIdPhoto resp = InvokeResult.resolved img) ∧
    (∀ img, generateIdPhoto resp = InvokeResult.resolved img →
      data.base64Image = some img) := by
  have hred : generateIdPhoto resp =
      (match data.base64Image with
       | some img =>
         if img = "" then InvokeResult.threw noImageDataMsg
         else InvokeResult.resolved img
       | none => InvokeResult.threw noImageDataMsg) := by
    unfold generateIdPhoto
    rw [hok, hjson]
    simp
  refine ⟨?_, ?_, ?_⟩
  · intro hf
    rcases truthyStr_false_iff.mp hf with h | h
    · rw [hred, h]
    · rw [hred, h]
      simp
  · intro img himg hne
    rw [hred, himg]
    simp [hne]
  · intro img h
    rw [hred] at h
    cases hb : data.base64Image with
    | none => rw [hb] at h; simp at h
    | some s =>
      rw [hb] at h
      by_cases hs : s = ""
      · simp [hs] at h
      · simp [hs] at h
        rw [h]

/-- Witness for C7: at a concrete OK response carrying an image the invoker
resolves with that exact value, and at one lacking the field it throws the
no-image-data error. -/
theorem c7_ok_image_contract_witness :
    c7RespOk.ok = true ∧ c7RespOk.jsonResult = Except.ok ⟨none, some ("IMGDATA64")⟩ ∧
    generateIdPhoto c7RespOk = InvokeResult.resolved ("IMGDATA64") ∧
    c7RespMissing.ok = true ∧ c7RespMissing.jsonResult = Except.ok ⟨none, none⟩ ∧
    generateIdPhoto c7RespMissing = InvokeResult.threw noImageDataMsg := by
  refine ⟨rfl, rfl, ?_, rfl, rfl, ?_⟩
  · exact (c7_ok_image_contract c7RespOk ⟨none, some ("IMGDATA64")⟩ rfl
      rfl).2.1 ("IMGDATA64") rfl (by decide)
  · exact (c7_ok_image_contract c7RespMissing ⟨none, none⟩ rfl rfl).1 rfl

/-! ### C2 and C3: the response mapping of the server handler -/

/-- C2: the handler maps the external API response through mutually
exclusive outcomes in priority order: a first candidate finishing with
SAFETY yields 400 with the safety-block message; otherwise a missing or
empty parts list yields 500 with the retry message; otherwise a segment
carrying truthy inline image data yields 200 with `base64Image` equal to
the data of that segment, byte-for-byte; otherwise a segment carrying truthy
text yields 500 with that text embedded in the error message; otherwise
500 with the generic could-not-generate message. -/
theorem c2_response_priority_mapping :
    (∀ resp : GenResponse, firstFinishReason resp = some ("SAFETY") →
      interpretResponse resp = ⟨400, none, HttpBody.errorJson safetyBlockedMsg⟩) ∧
    (∀ resp : GenResponse, firstFinishReason resp ≠ some ("SAFETY") →
      (respParts resp = none ∨ respParts resp = some []) →
      interpretResponse resp = ⟨500, none, HttpBody.errorJson emptyRespMsg⟩) ∧
    (∀ (resp : GenResponse) (parts : List GenPart),
      firstFinishReason resp ≠ some ("SAFETY") → respParts resp = some parts →
      (∃ p ∈ parts, p.inlineData.isSome = true) →
      ∃ p ∈ parts, ∃ d, p.inlineData = some d ∧
        interpretResponse resp = ⟨200, none, HttpBody.imageJson d.data⟩) ∧
    (∀ (resp : GenResponse) (parts : List GenPart),
      firstFinishReason resp ≠ some ("SAFETY") → respParts resp = some parts →
      (∀ p ∈ parts, p.inlineData = none) →
      (∃ p ∈ parts, truthyStr p.text = true) →
      ∃ t, (∃ p ∈ parts, p.text = some t ∧ t ≠ "") ∧
        interpretResponse resp =
          ⟨500, none, HttpBody.errorJson ("AIからのメッセージ: " ++ t)⟩) ∧
    (∀ (resp : GenResponse) (parts : List GenPart),
      firstFinishReason resp ≠ some ("SAFETY") → respParts resp = some parts →
      parts ≠ [] → (∀ p ∈ parts, p.inlineData = none) →
      (∀ p ∈ parts, truthyStr p.text = false) →
      interpretResponse resp = ⟨500, none, HttpBody.errorJson cannotGenerateMsg⟩) := by
  refine ⟨fun resp h => interpretResponse_safety resp h, ?_, ?_, ?_, ?_⟩
  · intro resp hs hp
    rw [interpretResponse_not_safety resp hs]
    rcases hp with h | h
    · rw [h]
    · rw [h]
      exact interpretParts_nil
  · intro resp parts hs hp himg
    obtain ⟨p, hpmem, d, hd, heq⟩ := interpretParts_image parts himg
    refine ⟨p, hpmem, d, hd, ?_⟩
    rw [interpretResponse_not_safety resp hs, hp]
    exact heq
  · intro resp parts hs hp hni ht
    obtain ⟨t, hmem, heq⟩ := interpretParts_text parts hni ht
    refine ⟨t, hmem, ?_⟩
    rw [interpretResponse_not_safety resp hs, hp]
    exact heq
  · intro resp parts hs hp hne hni hnt
    rw [interpretResponse_not_safety resp hs, hp]
    exact interpretParts_generic parts hne hni hnt

/-- Witness for C2: each branch of the priority mapping evaluated at a
concrete external response. -/
theorem c2_response_priority_mapping_witness :
    interpretResponse respSafety = ⟨400, none, HttpBody.errorJson safetyBlockedMsg⟩ ∧
    interpretResponse respEmpty = ⟨500, none, HttpBody.errorJson emptyRespMsg⟩ ∧
    (∃ p ∈ [imgPart], ∃ d, p.inlineData = some d ∧
      interpretResponse respImg = ⟨200, none, HttpBody.imageJson d.data⟩) ∧
    (∃ t, (∃ p ∈ [txtPart], p.text = some t ∧ t ≠ "") ∧
      interpretResponse respTxt =
        ⟨500, none, HttpBody.errorJson ("AIからのメッセージ: " ++ t)⟩) ∧
    interpretResponse respBlank = ⟨500, none, HttpBody.errorJson cannotGenerateMsg⟩ := by
  obtain ⟨h1, h2, h3, h4, h5⟩ := c2_response_priority_mapping
  refine ⟨h1 respSafety rfl, h2 respEmpty (by decide) (Or.inr rfl), ?_, ?_, ?_⟩
  · exact h3 respImg [imgPart] (by decide) rfl (by decide)
  · exact h4 respTxt [txtPart] (by decide) rfl (by decide) (by decide)
  · exact h5 respBlank [blankPart] (by decide) rfl (by decide) (by decide) (by decide)

/-- On a destructured body the handler always returns exactly one response:
status 200 with an image body, or a 4xx/5xx with an error body (or the
fixed 405 text); a thrown external-call outcome is mapped to 500. -/
theorem handler_response_shape (method : String) (b : RequestBody)
    (env : String → Option String) (call : Except Thrown GenResponse) :
    ((handler method b env call).response.status = 200 ∧
      ∃ img, (handler method b env call).response.body = HttpBody.imageJson img) ∨
    ((400 ≤ (handler method b env call).response.status ∧
        (handler method b env call).response.status < 600) ∧
      ((∃ msg, (handler method b env call).response.body = HttpBody.errorJson msg) ∨
        (handler method b env call).response.body =
          HttpBody.rawText methodNotAllowedMsg)) := by
  unfold handler
  split
  · exact Or.inr ⟨⟨by norm_num, by norm_num⟩, Or.inr rfl⟩
  · split
    · exact Or.inr ⟨⟨by norm_num, by norm_num⟩, Or.inl ⟨missingMsg, rfl⟩⟩
    · split
      · exact Or.inr ⟨⟨by norm_num, by norm_num⟩, Or.inl ⟨apiKeyConfigMsg, rfl⟩⟩
      · split
        · next resp =>
          rcases interpretResponse_status_body resp with ⟨h1, img, h2⟩ | ⟨h1, msg, h2⟩
          · exact Or.inl ⟨h1, img, h2⟩
          · exact Or.inr ⟨h1, Or.inl ⟨msg, h2⟩⟩
        · next e =>
          exact Or.inr ⟨⟨by norm_num, by norm_num⟩, Or.inl ⟨thrownMessage e, rfl⟩⟩

/-- Counterexample for C3: a POST request whose `req.body` is null or
undefined makes the handler throw the destructuring TypeError uncaught —
it produces no HTTP response at all — so the claim as stated, one HTTP
response for every inbound request with no uncaught exception, is false at
this concrete input. -/
theorem c3_null_body_uncaught :
    handlerReq ("POST") none noneEnv dummyCall =
      Except.error destructureTypeError := rfl

/-- C3 (amended): for every inbound request except a POST whose `req.body`
is null or undefined, the handler terminates by producing exactly one HTTP
response and never lets an exception propagate uncaught past the handler
boundary, and every failing path ends in a single 4xx or 5xx response
carrying an error body (or the fixed 405 text); a POST with a
null/undefined body instead escapes with the uncaught destructuring
TypeError. -/
theorem c3_single_response_when_body_destructures (method : String)
    (body : Option RequestBody) (env : String → Option String)
    (call : Except Thrown GenResponse) (h : method = "POST" → body ≠ none) :
    ∃ r : HandlerResult, handlerReq method body env call = Except.ok r ∧
      ((r.response.status = 200 ∧ ∃ img, r.response.body = HttpBody.imageJson img) ∨
        ((400 ≤ r.response.status ∧ r.response.status < 600) ∧
          ((∃ msg, r.response.body = HttpBody.errorJson msg) ∨
            r.response.body = HttpBody.rawText methodNotAllowedMsg))) := by
  unfold handlerReq
  split
  · exact ⟨_, rfl, Or.inr ⟨⟨by norm_num, by norm_num⟩, Or.inr rfl⟩⟩
  · next hpost =>
    cases hb : body with
    | none => exact absurd hb (h (not_not.mp hpost))
    | some b =>
      exact ⟨handler method b env call, rfl, handler_response_shape method b env call⟩

/-- Witness for C3: a concrete POST with a destructurable body receives
exactly one well-formed HTTP response from the raw-request handler. -/
theorem c3_single_response_when_body_destructures_witness :
    (("POST" : String) = "POST" → (some goodBody : Option RequestBody) ≠ none) ∧
    ∃ r : HandlerResult,
      handlerReq ("POST") (some goodBody) goodEnv dummyCall = Except.ok r ∧
      ((r.response.status = 200 ∧ ∃ img, r.response.body = HttpBody.imageJson img) ∨
        ((400 ≤ r.response.status ∧ r.response.status < 600) ∧
          ((∃ msg, r.response.body = HttpBody.errorJson msg) ∨
            r.response.body = HttpBody.rawText methodNotAllowedMsg))) := by
  refine ⟨fun _ => by decide, ?_⟩
  exact c3_single_response_when_body_destructures ("POST") (some goodBody) goodEnv
    dummyCall (fun _ => by decide)

/-! ### C4 and C10: request-body validation -/

/-- C4: a POST body missing any one of the five required fields yields the
400 missing-parameters error response without calling the external API,
while a body whose four string fields are truthy and whose
`enableBeautification` is explicitly `false` passes validation: its
response is never the missing-parameters 400. -/
theorem c4_missing_fields_validation (b : RequestBody)
    (env : String → Option String) (call : Except Thrown GenResponse) :
    ((b.base64Image = none ∨ b.mimeType = none ∨ b.backgroundColor = none ∨
        b.outfit = none ∨ b.enableBeautification = none) →
      handler ("POST") b env call =
        ⟨⟨400, none, HttpBody.errorJson missingMsg⟩, false⟩) ∧
    (truthyStr b.base64Image = true → truthyStr b.mimeType = true →
      truthyStr b.backgroundColor = true → truthyStr b.outfit = true →
      b.enableBeautification = some false →
      (handler ("POST") b env call).response ≠
        ⟨400, none, HttpBody.errorJson missingMsg⟩) := by
  constructor
  · intro hm
    unfold handler
    rcases hm with h | h | h | h | h <;>
      rw [if_neg (by simp), if_pos (by simp [h, truthyStr])]
  · intro h1 h2 h3 h4 h5
    have hv : validBody b = true := by simp [validBody, h1, h2, h3, h4, h5]
    rw [handler_valid b env call hv]
    split
    · intro heq
      have := congrArg HttpResponse.status heq
      simp at this
    · split
      · next resp =>
        rcases interpretResponse_shape resp with h | h | ⟨d, h⟩ | ⟨t, h⟩ | h
        · intro heq
          have heq2 : (⟨400, none, HttpBody.errorJson safetyBlockedMsg⟩ : HttpResponse) =
              ⟨400, none, HttpBody.errorJson missingMsg⟩ := by rw [← h]; exact heq
          exact absurd heq2 (by decide)
        · intro heq
          have heq2 : (⟨500, none, HttpBody.errorJson emptyRespMsg⟩ : HttpResponse) =
              ⟨400, none, HttpBody.errorJson missingMsg⟩ := by rw [← h]; exact heq
          exact absurd heq2 (by decide)
        · intro heq
          have heq2 : (⟨200, none, HttpBody.imageJson d⟩ : HttpResponse) =
              ⟨400, none, HttpBody.errorJson missingMsg⟩ := by rw [← h]; exact heq
          have := congrArg HttpResponse.status heq2
          simp at this
        · intro heq
          have heq2 : (⟨500, none,
              HttpBody.errorJson ("AIからのメッセージ: " ++ t)⟩ : HttpResponse) =
              ⟨400, none, HttpBody.errorJson missingMsg⟩ := by rw [← h]; exact heq
          have := congrArg HttpResponse.status heq2
          simp at this
        · intro heq
          have heq2 : (⟨500, none, HttpBody.errorJson cannotGenerateMsg⟩ : HttpResponse) =
              ⟨400, none, HttpBody.errorJson missingMsg⟩ := by rw [← h]; exact heq
          exact absurd heq2 (by decide)
      · next e =>
        intro heq
        have := congrArg HttpResponse.status heq
        simp at this

/-- Witness for C4: a concrete body lacking `mimeType` receives the 400
missing-parameters response, and a concrete body with
`enableBeautification` explicitly `false` does not. -/
theorem c4_missing_fields_validation_witness :
    noMimeBody.mimeType = none ∧
    handler ("POST") noMimeBody goodEnv dummyCall =
      ⟨⟨400, none, HttpBody.errorJson missingMsg⟩, false⟩ ∧
    goodBody.enableBeautification = some false ∧
    (handler ("POST") goodBody goodEnv dummyCall).response ≠
      ⟨400, none, HttpBody.errorJson missingMsg⟩ := by
  refine ⟨rfl, ?_, rfl, ?_⟩
  · exact (c4_missing_fields_validation noMimeBody goodEnv dummyCall).1
      (Or.inr (Or.inl rfl))
  · exact (c4_missing_fields_validation goodBody goodEnv dummyCall).2
      (by decide) (by decide) (by decide) (by decide) rfl

/-! ### C5 and C6: configuration and exception handling -/

/-- C5: for every valid POST body, an environment in which `API_KEY` is
absent makes the handler return the fixed 500 configuration-error response
without calling the external API; moreover the entire outcome of the handler
depends on the environment only through the `API_KEY` entry, so the
response sent to the client is independent of the values of all other
environment variables and cannot enumerate them. -/
theorem c5_missing_key_fixed_response :
    (∀ (b : RequestBody) (env : String → Option String)
        (call : Except Thrown GenResponse),
      validBody b = true → env ("API_KEY") = none →
      handler ("POST") b env call =
        ⟨⟨500, none, HttpBody.errorJson apiKeyConfigMsg⟩, false⟩) ∧
    (∀ (method : String) (b : RequestBody) (env env2 : String → Option String)
        (call : Except Thrown GenResponse),
      env ("API_KEY") = env2 ("API_KEY") →
      handler method b env call = handler method b env2 call) := by
  constructor
  · intro b env call hv hk
    rw [handler_valid b env call hv, if_pos (by simp [hk, truthyStr])]
  · intro method b env env2 call h
    unfold handler
    rw [h]

/-- Witness for C5: with every variable absent the concrete valid body
receives the fixed configuration error, and two environments agreeing only
on `API_KEY` produce identical handler outcomes. -/
theorem c5_missing_key_fixed_response_witness :
    validBody goodBody = true ∧ noneEnv ("API_KEY") = none ∧
    handler ("POST") goodBody noneEnv dummyCall =
      ⟨⟨500, none, HttpBody.errorJson apiKeyConfigMsg⟩, false⟩ ∧
    goodEnv ("API_KEY") = otherEnv ("API_KEY") ∧
    handler ("POST") goodBody goodEnv dummyCall =
      handler ("POST") goodBody otherEnv dummyCall := by
  obtain ⟨h1, h2⟩ := c5_missing_key_fixed_response
  exact ⟨by decide, rfl, h1 goodBody noneEnv dummyCall (by decide) rfl, by decide,
    h2 ("POST") goodBody goodEnv otherEnv dummyCall (by decide)⟩

/-- C6: for every valid POST body with a configured key, a thrown
external-call outcome is caught and surfaced as a 500 response whose error
field is the message of the thrown `Error`, with the generic fallback message
used for a non-`Error` throwable. -/
theorem c6_catch_exception_500 (b : RequestBody) (env : String → Option String)
    (e : Thrown) (hv : validBody b = true)
    (hk : truthyStr (env ("API_KEY")) = true) :
    (handler ("POST") b env (Except.error e)).response =
      ⟨500, none, HttpBody.errorJson (thrownMessage e)⟩ ∧
    (∀ m, thrownMessage (Thrown.errObj m) = m) ∧
    thrownMessage Thrown.nonError = "不明なエラーが発生しました。" := by
  refine ⟨?_, fun m => rfl, rfl⟩
  rw [handler_valid b env (Except.error e) hv, if_neg (by simp [hk])]

/-- Witness for C6: a concrete thrown `Error` with message text is surfaced
verbatim in a 500 response. -/
theorem c6_catch_exception_500_witness :
    validBody goodBody = true ∧ truthyStr (goodEnv ("API_KEY")) = true ∧
    (handler ("POST") goodBody goodEnv
        (Except.error (Thrown.errObj ("boom")))).response =
      ⟨500, none, HttpBody.errorJson ("boom")⟩ := by
  refine ⟨by decide, by decide, ?_⟩
  exact (c6_catch_exception_500 goodBody goodEnv (Thrown.errObj ("boom"))
    (by decide) (by decide)).1

/-- C10: a POST body in which one of the four string fields is present but
empty receives the same 400 missing-parameters response as an absent field,
without the external API being called; an `API_KEY` that is present but
empty is treated like an absent credential and yields the 500
configuration error, also without calling the external API. -/
theorem c10_empty_string_falsy (b : RequestBody) (env : String → Option String)
    (call : Except Thrown GenResponse) :
    ((b.base64Image = some ("") ∨ b.mimeType = some ("") ∨
        b.backgroundColor = some ("") ∨ b.outfit = some ("")) →
      handler ("POST") b env call =
        ⟨⟨400, none, HttpBody.errorJson missingMsg⟩, false⟩) ∧
    (validBody b = true → env ("API_KEY") = some ("") →
      handler ("POST") b env call =
        ⟨⟨500, none, HttpBody.errorJson apiKeyConfigMsg⟩, false⟩) := by
  constructor
  · intro hm
    unfold handler
    rcases hm with h | h | h | h <;>
      rw [if_neg (by simp), if_pos (by simp [h, truthyStr])]
  · intro hv hk
    rw [handler_valid b env call hv, if_pos (by simp [hk, truthyStr])]

/-- Witness for C10: a concrete body with an empty `mimeType` receives the
400 missing-parameters response, and a concrete valid body under an
environment with an empty `API_KEY` receives the 500 configuration
error. -/
theorem c10_empty_string_falsy_witness :
    emptyMimeBody.mimeType = some ("") ∧
    handler ("POST") emptyMimeBody goodEnv dummyCall =
      ⟨⟨400, none, HttpBody.errorJson missingMsg⟩, false⟩ ∧
    validBody goodBody = true ∧ emptyKeyEnv ("API_KEY") = some ("") ∧
    handler ("POST") goodBody emptyKeyEnv dummyCall =
      ⟨⟨500, none, HttpBody.errorJson apiKeyConfigMsg⟩, false⟩ := by
  refine ⟨rfl, ?_, by decide, by decide, ?_⟩
  · exact (c10_empty_string_falsy emptyMimeBody goodEnv dummyCall).1
      (Or.inr (Or.inl rfl))
  · exact (c10_empty_string_falsy goodBody emptyKeyEnv dummyCall).2
      (by decide) (by decide)

/-! ### C8 and C9: the prompt builder -/

set_option maxRecDepth 10000 in
theorem promptPart1_length_pos : 0 < promptPart1.length := by decide

theorem buildPrompt_ne_empty (bg outfit : String) (e : Bool) :
    buildPrompt bg outfit e ≠ "" := by
  intro heq
  have h := congrArg String.length heq
  simp only [buildPrompt, String.length_append] at h
  have h1 := promptPart1_length_pos
  have h0 : ("" : String).length = 0 := rfl
  rw [h0] at h
  omega

/-- C8: the prompt builder is a pure total function: for every background
color, outfit and beautification flag it yields a non-empty instruction
string containing the looked-up hex code and clothing phrase; the
recognized enum values map to their documented hex codes and suit phrases,
every unrecognized value falls back to the documented defaults `#ffffff`
and the phrase `professional business attire` instead of failing, and
equal inputs always produce character-for-character identical prompts. -/
theorem c8_prompt_builder :
    (∀ bg outfit e, buildPrompt bg outfit e ≠ "") ∧
    (∀ bg outfit e,
      strContains (buildPrompt bg outfit e) (getBackgroundColorHex bg) ∧
      strContains (buildPrompt bg outfit e) (getOutfitDescription outfit)) ∧
    (getBackgroundColorHex ("青") = "#a0d8ef" ∧
      getBackgroundColorHex ("白") = "#ffffff" ∧
      getBackgroundColorHex ("グレー") = "#f0f0f0") ∧
    (getOutfitDescription ("男性用スーツ") =
        "dark-colored business suit with a white collared shirt and a simple tie" ∧
      getOutfitDescription ("女性用スーツ") =
        "dark-colored business suit with a white blouse") ∧
    (∀ bg, bg ≠ "青" → bg ≠ "白" → bg ≠ "グレー" →
      getBackgroundColorHex bg = "#ffffff") ∧
    (∀ o, o ≠ "男性用スーツ" → o ≠ "女性用スーツ" →
      getOutfitDescription o = "professional business attire") ∧
    (∀ bg1 o1 e1 bg2 o2 e2, bg1 = bg2 → o1 = o2 → e1 = e2 →
      buildPrompt bg1 o1 e1 = buildPrompt bg2 o2 e2) := by
  refine ⟨buildPrompt_ne_empty, ?_, ⟨by decide, by decide, by decide⟩,
    ⟨by decide, by decide⟩, ?_, ?_, ?_⟩
  · intro bg outfit e
    constructor
    · exact ⟨promptPart1 ++ getOutfitDescription outfit ++ promptPart2,
        promptPart3 ++
          (if e then beautificationInstructions else disabledClause) ++ promptPart4,
        by simp [buildPrompt, String.append_assoc]⟩
    · exact ⟨promptPart1,
        promptPart2 ++ getBackgroundColorHex bg ++ promptPart3 ++
          (if e then beautificationInstructions else disabledClause) ++ promptPart4,
        by simp [buildPrompt, String.append_assoc]⟩
  · intro bg h1 h2 h3
    unfold getBackgroundColorHex
    rw [if_neg h1, if_neg h2, if_neg h3]
  · intro o h1 h2
    unfold getOutfitDescription
    rw [if_neg h1, if_neg h2]
  · intro bg1 o1 e1 bg2 o2 e2 hbg ho he
    rw [hbg, ho, he]

set_option maxRecDepth 10000 in
/-- Witness for C8: the four lookup combinations at concrete recognized and
unrecognized values, and determinism at a concrete repeated input. -/
theorem c8_prompt_builder_witness :
    buildPrompt ("pink") ("casual") true ≠ "" ∧
    strContains (buildPrompt ("青") ("男性用スーツ") true) ("#a0d8ef") ∧
    strContains (buildPrompt ("青") ("男性用スーツ") true)
      ("dark-colored business suit with a white collared shirt and a simple tie") ∧
    getBackgroundColorHex ("pink") = "#ffffff" ∧
    getOutfitDescription ("casual") = "professional business attire" ∧
    buildPrompt ("白") ("casual") false = buildPrompt ("白") ("casual") false := by
  obtain ⟨hne, hcon, hbg, ho, hbgdef, hodef, hdet⟩ := c8_prompt_builder
  refine ⟨hne ("pink") ("casual") true, ?_, ?_,
    hbgdef ("pink") (by decide) (by decide) (by decide),
    hodef ("casual") (by decide) (by decide),
    hdet ("白") ("casual") false ("白") ("casual") false rfl rfl rfl⟩
  · have h := (hcon ("青") ("男性用スーツ") true).1
    rwa [hbg.1] at h
  · have h := (hcon ("青") ("男性用スーツ") true).2
    rwa [ho.1] at h

set_option maxRecDepth 10000 in
theorem altPart3_split : altPart3 = altPart3head ++ ("- Beautification: ") := rfl

/-- C9: with beautification off, the built prompt contains the explicit
negative instruction that all cosmetic adjustments are disabled — not
merely the absence of the beautification clause used when the flag is on —
and the prompt of the alternate draft likewise contains its explicit
`Beautification: Disabled.` rule. -/
theorem c9_explicit_disable_clause :
    (∀ bg outfit, strContains (buildPrompt bg outfit false) disabledClause) ∧
    (∀ bg outfit,
      strContains (buildPrompt bg outfit true) beautificationInstructions) ∧
    (∀ bg outfit,
      strContains (altBuildPrompt bg outfit false) ("- Beautification: Disabled.")) := by
  refine ⟨?_, ?_, ?_⟩
  · intro bg outfit
    exact ⟨promptPart1 ++ getOutfitDescription outfit ++ promptPart2 ++
        getBackgroundColorHex bg ++ promptPart3, promptPart4,
      by simp [buildPrompt, String.append_assoc]⟩
  · intro bg outfit
    exact ⟨promptPart1 ++ getOutfitDescription outfit ++ promptPart2 ++
        getBackgroundColorHex bg ++ promptPart3, promptPart4,
      by simp [buildPrompt, String.append_assoc]⟩
  · intro bg outfit
    refine ⟨altPart1 ++ getOutfitDescription outfit ++ altPart2 ++
        getBackgroundColorHex bg ++ altPart3head, altPart4, ?_⟩
    have hmerge : ("- Beautification: ") ++ ("Disabled.") =
        ("- Beautification: Disabled.") := rfl
    rw [← hmerge]
    simp [altBuildPrompt, altPart3_split, String.append_assoc]

end FastShooting
